import Mathlib

/-!
Verification of the vulkano queue-submission builder
(`src/vulkano/src/command_buffer/submit/queue_submit.rs`) and of the
deferred example's frame loop (`src/examples/src/bin/deferred/main.rs`).

Vulkan object handles (semaphores, command buffers, fences, pipeline-stage
masks) are opaque to this code: the builder only stores and concatenates
them.  We model each handle as a `Nat`; the null fence handle
(`ash::vk::Fence::null()`) is `0`, and a handle obtained from a live
`Fence` via `internal_object()` is non-null (non-zero).
-/

namespace Vulkano

/-- The state of `SubmitCommandBufferBuilder<'a>`: four `SmallVec`s of raw
handles plus a raw fence handle (`ash::vk::Fence::null()` = `0` when no
fence is attached). -/
structure SubmitCommandBufferBuilder where
  wait_semaphores : List Nat
  destination_stages : List Nat
  signal_semaphores : List Nat
  command_buffers : List Nat
  fence : Nat
  deriving Repr, DecidableEq

namespace SubmitCommandBufferBuilder

/-- `SubmitCommandBufferBuilder::new()`: empty vectors, null fence. -/
def new : SubmitCommandBufferBuilder :=
  { wait_semaphores := []
    destination_stages := []
    signal_semaphores := []
    command_buffers := []
    fence := 0 }

/-- `has_fence()`: true iff the stored fence handle is not null. -/
def has_fence (b : SubmitCommandBufferBuilder) : Bool :=
  b.fence ≠ 0

/-- `set_fence_signal(&mut self, fence)`: overwrites the stored fence handle
with `fence.internal_object()` (the argument here is that raw handle). -/
def set_fence_signal (b : SubmitCommandBufferBuilder) (fence : Nat) :
    SubmitCommandBufferBuilder :=
  { b with fence := fence }

/-- `add_wait_semaphore(&mut self, semaphore, stages)`: pushes the semaphore
handle onto `wait_semaphores` and the stage mask onto `destination_stages`. -/
def add_wait_semaphore (b : SubmitCommandBufferBuilder)
    (semaphore stages : Nat) : SubmitCommandBufferBuilder :=
  { b with
    wait_semaphores := b.wait_semaphores ++ [semaphore]
    destination_stages := b.destination_stages ++ [stages] }

/-- `add_command_buffer(&mut self, command_buffer)`: pushes the command
buffer handle onto `command_buffers`. -/
def add_command_buffer (b : SubmitCommandBufferBuilder)
    (command_buffer : Nat) : SubmitCommandBufferBuilder :=
  { b with command_buffers := b.command_buffers ++ [command_buffer] }

/-- `add_signal_semaphore(&mut self, semaphore)`: pushes the semaphore
handle onto `signal_semaphores`. -/
def add_signal_semaphore (b : SubmitCommandBufferBuilder)
    (semaphore : Nat) : SubmitCommandBufferBuilder :=
  { b with signal_semaphores := b.signal_semaphores ++ [semaphore] }

/-- `num_signal_semaphores()`: length of `signal_semaphores`. -/
def num_signal_semaphores (b : SubmitCommandBufferBuilder) : Nat :=
  b.signal_semaphores.length

/-- `merge(mut self, other)`.  The Rust function first
`assert!(self.fence == null || other.fence == null, "Can't merge two queue
submits that both have a fence")` — a failing assert is a panic, modelled as
`none`.  It then extends each of the four vectors of `self` with `other`'s
and, if `self`'s fence is null, takes `other`'s fence. -/
def merge (self other : SubmitCommandBufferBuilder) :
    Option SubmitCommandBufferBuilder :=
  if self.fence = 0 ∨ other.fence = 0 then
    some
      { wait_semaphores := self.wait_semaphores ++ other.wait_semaphores
        destination_stages :=
          self.destination_stages ++ other.destination_stages
        signal_semaphores :=
          self.signal_semaphores ++ other.signal_semaphores
        command_buffers := self.command_buffers ++ other.command_buffers
        fence := if self.fence = 0 then other.fence else self.fence }
  else
    none

end SubmitCommandBufferBuilder

/-- One mutating builder operation, used to quantify over arbitrary call
sequences on a `SubmitCommandBufferBuilder`. -/
inductive BuilderOp
  | wait (semaphore stages : Nat)
  | buffer (command_buffer : Nat)
  | signal (semaphore : Nat)
  | fenceSignal (fence : Nat)
  deriving Repr, DecidableEq

/-- Applies one builder operation. -/
def applyOp (b : SubmitCommandBufferBuilder) :
    BuilderOp → SubmitCommandBufferBuilder
  | BuilderOp.wait s st => b.add_wait_semaphore s st
  | BuilderOp.buffer c => b.add_command_buffer c
  | BuilderOp.signal s => b.add_signal_semaphore s
  | BuilderOp.fenceSignal f => b.set_fence_signal f

/-- Builders obtainable from `new()` by any sequence of add/set operations
and successful (non-panicking) merges. -/
inductive Reachable : SubmitCommandBufferBuilder → Prop
  | base : Reachable SubmitCommandBufferBuilder.new
  | step (b : SubmitCommandBufferBuilder) (o : BuilderOp) :
      Reachable b → Reachable (applyOp b o)
  | fromMerge (a b m : SubmitCommandBufferBuilder) :
      Reachable a → Reachable b →
      SubmitCommandBufferBuilder.merge a b = some m → Reachable m

/-- Modelled from the spec: the full variant list of `crate::Error` (the
raw backend error codes) is not under src/; only `OutOfHostMemory`,
`OutOfDeviceMemory` and `DeviceLost` are matched by the code under src/,
and the spec describes all remaining codes uniformly as "any other backend
error".  We list the three matched codes plus representative others
covered by the catch-all arm. -/
inductive Error
  | OutOfHostMemory
  | OutOfDeviceMemory
  | DeviceLost
  | InitializationFailed
  | SurfaceLost
  | OutOfDate
  | ValidationError
  deriving Repr, DecidableEq

/-- Variants of `OomError` (out-of-memory, host or device). -/
inductive OomError
  | OutOfHostMemory
  | OutOfDeviceMemory
  deriving Repr, DecidableEq

/-- Variants of `SubmitCommandBufferError` (queue_submit.rs lines
250-256). -/
inductive SubmitCommandBufferError
  | OomError (err : OomError)
  | DeviceLost
  deriving Repr, DecidableEq

/-- Conversion `From<Error> for SubmitCommandBufferError` (queue_submit.rs
lines 283-295): host/device out-of-memory map to the `OomError` variant,
`DeviceLost` maps to `DeviceLost`, and the `_ => panic!(...)` catch-all arm
is modelled as `none`.  (`OomError::from`, not under src/, is inlined here;
per the spec it yields the matching host/device out-of-memory variant.) -/
def SubmitCommandBufferError.fromError : Error → Option SubmitCommandBufferError
  | Error.OutOfHostMemory =>
      some (SubmitCommandBufferError.OomError OomError.OutOfHostMemory)
  | Error.OutOfDeviceMemory =>
      some (SubmitCommandBufferError.OomError OomError.OutOfDeviceMemory)
  | Error.DeviceLost => some SubmitCommandBufferError.DeviceLost
  | _ => none

/-- Rust `submit(self, queue)` (queue_submit.rs lines 199-220).  The device
call itself is external, so the backend's reported outcome of
`vkQueueSubmit` is a parameter; `check_errors` (not under src/, modelled
from the spec) maps a success code to `Ok(())` and an error code `e` to
`Err(e)`, which `?` routes through `SubmitCommandBufferError::from`.
`none` models a panic. -/
def submit (_b : SubmitCommandBufferBuilder) (backend : Except Error Unit) :
    Option (Except SubmitCommandBufferError Unit) :=
  match backend with
  | Except.ok _ => some (Except.ok ())
  | Except.error e =>
    match SubmitCommandBufferError.fromError e with
    | some se => some (Except.error se)
    | none => none

/-- The three pass variants of the deferred example's frame system. -/
inductive Pass
  | Deferred
  | Lighting
  | Finished
  deriving Repr, DecidableEq

/-- Modelled from the spec: the `frame` module (`FrameSystem`,
`Frame::next_pass`) used by `src/examples/src/bin/deferred/main.rs` is not
under src/.  Per the spec, `next_pass()` produces the lazy, finite,
non-restartable sequence Deferred, Lighting, Finished, each call advancing
exactly one stage and producing nothing once `Finished` has been produced;
we model the frame's position in that sequence as a pass counter. -/
structure Frame where
  num_pass : Nat
  deriving Repr, DecidableEq

/-- Modelled from the spec: one `next_pass()` call — yields the current
stage's variant and advances the counter by exactly one; past `Finished`
it produces nothing. -/
def Frame.next_pass : Frame → Option (Pass × Frame)
  | ⟨0⟩ => some (Pass.Deferred, ⟨1⟩)
  | ⟨1⟩ => some (Pass.Lighting, ⟨2⟩)
  | ⟨2⟩ => some (Pass.Finished, ⟨3⟩)
  | ⟨_ + 3⟩ => none

/-- Frame state at the start of a frame (`frame_system.frame(...)`). -/
def Frame.start : Frame := ⟨0⟩

/-- Passes produced by calling `next_pass` up to `fuel` times, stopping
early when a call produces nothing (the `while let Some(pass)` loop in
main.rs lines 210-227). -/
def Frame.passes : Frame → Nat → List Pass
  | _, 0 => []
  | f, fuel + 1 =>
    match f.next_pass with
    | none => []
    | some (p, f2) => p :: Frame.passes f2 fuel

/-- Dependency future values threaded between frame-loop iterations:
`now` is a fresh already-signaled no-op future (`sync::now(device)`),
`flushed id` is the future returned by `then_signal_fence_and_flush` of
submission number `id`. -/
inductive GpuFut
  | now
  | flushed (id : Nat)
  deriving Repr, DecidableEq

/-- Outcome of `swapchain.recreate(...)` (external collaborator). -/
inductive RecreateResult
  | ok
  | imageExtentNotSupported
  | fatal
  deriving Repr, DecidableEq

/-- Outcome of `acquire_next_image(...)` (external collaborator). -/
inductive AcquireResult
  | ok (image_num : Nat) (suboptimal : Bool)
  | outOfDate
  | fatal
  deriving Repr, DecidableEq

/-- Outcome of `then_signal_fence_and_flush()` (external collaborator). -/
inductive FlushResult
  | ok
  | outOfDate
  | otherError
  deriving Repr, DecidableEq

/-- Mutable state of the event loop in main.rs: the recreation flag, the
current swapchain-plus-images generation, the dependency future carried
from the previous frame, and a counter minting fresh flushed-future ids. -/
structure LoopState where
  recreate_swapchain : Bool
  swapchain : Nat
  previous_frame_end : GpuFut
  frame_counter : Nat
  deriving Repr, DecidableEq

/-- External inputs observed by one `RedrawEventsCleared` iteration: the
window's inner size and the collaborators' outcomes. -/
structure Env where
  width : Nat
  height : Nat
  recreate_result : RecreateResult
  acquire_result : AcquireResult
  flush_result : FlushResult
  deriving Repr, DecidableEq

/-- Observable effects of one iteration: whether `cleanup_finished` ran,
whether the swapchain was recreated, whether `acquire_next_image` was
called, which image index it yielded, whether pass-driving work was
recorded and submitted, and which image was presented. -/
structure Effects where
  cleanup_ran : Bool
  recreated : Bool
  acquire_attempted : Bool
  acquired_image : Option Nat
  submitted : Bool
  presented_image : Option Nat
  deriving Repr, DecidableEq

/-- Tail of an iteration from the `acquire_next_image` call onwards
(main.rs lines 192-246): on out-of-date, set the flag and return with no
submission; on success, optionally flag suboptimal, then drive the passes,
submit, present the acquired image and match the flush result. -/
def afterAcquire (s : LoopState) (env : Env) (recreated : Bool) :
    Option (LoopState × Effects) :=
  match env.acquire_result with
  | AcquireResult.fatal => none
  | AcquireResult.outOfDate =>
    some ({ s with recreate_swapchain := true },
      ⟨true, recreated, true, none, false, none⟩)
  | AcquireResult.ok image_num suboptimal =>
    let s2 := if suboptimal then { s with recreate_swapchain := true } else s
    match env.flush_result with
    | FlushResult.ok =>
      some ({ s2 with
                previous_frame_end := GpuFut.flushed s2.frame_counter
                frame_counter := s2.frame_counter + 1 },
        ⟨true, recreated, true, some image_num, true, some image_num⟩)
    | FlushResult.outOfDate =>
      some ({ s2 with
                recreate_swapchain := true
                previous_frame_end := GpuFut.now
                frame_counter := s2.frame_counter + 1 },
        ⟨true, recreated, true, some image_num, true, some image_num⟩)
    | FlushResult.otherError =>
      some ({ s2 with
                previous_frame_end := GpuFut.now
                frame_counter := s2.frame_counter + 1 },
        ⟨true, recreated, true, some image_num, true, some image_num⟩)

/-- One `RedrawEventsCleared` iteration (main.rs lines 165-247).  Zero
width or height returns immediately, before `cleanup_finished`.  Otherwise
the previous future's finished resources are reclaimed (non-destructive:
the future value stays in place), then the recreation branch runs if
flagged — `ImageExtentNotSupported` returns without modifying state, any
other failure panics — and the iteration continues from the acquire.
`none` models a panic. -/
def redrawEventsCleared (s : LoopState) (env : Env) :
    Option (LoopState × Effects) :=
  if env.width = 0 ∨ env.height = 0 then
    some (s, ⟨false, false, false, none, false, none⟩)
  else
    if s.recreate_swapchain then
      match env.recreate_result with
      | RecreateResult.fatal => none
      | RecreateResult.imageExtentNotSupported =>
        some (s, ⟨true, false, false, none, false, none⟩)
      | RecreateResult.ok =>
        afterAcquire
          { s with swapchain := s.swapchain + 1, recreate_swapchain := false }
          env true
    else
      afterAcquire s env false

end Vulkano

namespace Vulkano

open SubmitCommandBufferBuilder

/-- C1: `merge(A, B)` panics iff both `A` and `B` carry a fence; with
exactly one fence between them the merged result carries exactly that
fence; with no fence on either side the result carries none. -/
theorem merge_fence_cases (A B : SubmitCommandBufferBuilder) :
    (merge A B = none ↔ (A.has_fence = true ∧ B.has_fence = true))
    ∧ (A.has_fence = true → B.has_fence = false →
        ∃ m, merge A B = some m ∧ m.fence = A.fence)
    ∧ (A.has_fence = false → B.has_fence = true →
        ∃ m, merge A B = some m ∧ m.fence = B.fence)
    ∧ (A.has_fence = false → B.has_fence = false →
        ∃ m, merge A B = some m ∧ m.has_fence = false) := by
  simp only [merge, has_fence, ne_eq, decide_eq_true_eq, decide_eq_false_iff_not,
    not_not]
  by_cases hA : A.fence = 0 <;> by_cases hB : B.fence = 0 <;>
    simp [hA, hB, has_fence]

/-- Witness for C1 at concrete builders: one fenced input on the right. -/
theorem merge_fence_cases_witness :
    ∃ m, merge SubmitCommandBufferBuilder.new
        (set_fence_signal SubmitCommandBufferBuilder.new 7) = some m
      ∧ m.fence = (set_fence_signal SubmitCommandBufferBuilder.new 7).fence :=
  (merge_fence_cases SubmitCommandBufferBuilder.new
      (set_fence_signal SubmitCommandBufferBuilder.new 7)).2.2.1
    (by decide) (by decide)

/-- C2: when at most one of the two builders carries a fence (so `merge`
does not panic), every one of the four lists of the merged result is `A`'s
list followed by `B`'s list. -/
theorem merge_concatenates (A B : SubmitCommandBufferBuilder)
    (h : A.has_fence = false ∨ B.has_fence = false) :
    ∃ m, merge A B = some m
      ∧ m.command_buffers = A.command_buffers ++ B.command_buffers
      ∧ m.wait_semaphores = A.wait_semaphores ++ B.wait_semaphores
      ∧ m.destination_stages = A.destination_stages ++ B.destination_stages
      ∧ m.signal_semaphores = A.signal_semaphores ++ B.signal_semaphores := by
  have h0 : A.fence = 0 ∨ B.fence = 0 := by
    rcases h with h | h <;> [left; right] <;>
      simpa [has_fence] using h
  refine ⟨{ wait_semaphores := A.wait_semaphores ++ B.wait_semaphores
            destination_stages := A.destination_stages ++ B.destination_stages
            signal_semaphores := A.signal_semaphores ++ B.signal_semaphores
            command_buffers := A.command_buffers ++ B.command_buffers
            fence := if A.fence = 0 then B.fence else A.fence },
    by simp [merge, h0], rfl, rfl, rfl, rfl⟩

/-- Witness for C2 at concrete builders. -/
theorem merge_concatenates_witness :
    ∃ m, merge (add_command_buffer SubmitCommandBufferBuilder.new 3)
        (add_command_buffer SubmitCommandBufferBuilder.new 4) = some m
      ∧ m.command_buffers =
          (add_command_buffer SubmitCommandBufferBuilder.new 3).command_buffers
          ++ (add_command_buffer SubmitCommandBufferBuilder.new 4).command_buffers
      ∧ m.wait_semaphores =
          (add_command_buffer SubmitCommandBufferBuilder.new 3).wait_semaphores
          ++ (add_command_buffer SubmitCommandBufferBuilder.new 4).wait_semaphores
      ∧ m.destination_stages =
          (add_command_buffer SubmitCommandBufferBuilder.new 3).destination_stages
          ++ (add_command_buffer SubmitCommandBufferBuilder.new 4).destination_stages
      ∧ m.signal_semaphores =
          (add_command_buffer SubmitCommandBufferBuilder.new 3).signal_semaphores
          ++ (add_command_buffer SubmitCommandBufferBuilder.new 4).signal_semaphores :=
  merge_concatenates (add_command_buffer SubmitCommandBufferBuilder.new 3)
    (add_command_buffer SubmitCommandBufferBuilder.new 4) (Or.inl (by decide))

/-- C10: `set_fence_signal` on a builder that already carries a fence
replaces the stored fence with the new one (last write wins), never
panics, keeps `has_fence` true (a live fence's raw handle is non-null),
and leaves the wait, signal and command-buffer lists unchanged. -/
theorem set_fence_signal_replaces (b : SubmitCommandBufferBuilder)
    (f : Nat) (hf : f ≠ 0) :
    (set_fence_signal b f).fence = f
    ∧ (set_fence_signal b f).has_fence = true
    ∧ (set_fence_signal b f).wait_semaphores = b.wait_semaphores
    ∧ (set_fence_signal b f).destination_stages = b.destination_stages
    ∧ (set_fence_signal b f).signal_semaphores = b.signal_semaphores
    ∧ (set_fence_signal b f).command_buffers = b.command_buffers := by
  refine ⟨rfl, ?_, rfl, rfl, rfl, rfl⟩
  simp [set_fence_signal, has_fence, hf]

/-- Witness for C10: overwrite fence 7 with fence 9 on an already-fenced
builder. -/
theorem set_fence_signal_replaces_witness :
    (set_fence_signal (set_fence_signal SubmitCommandBufferBuilder.new 7) 9).fence = 9
    ∧ (set_fence_signal (set_fence_signal SubmitCommandBufferBuilder.new 7) 9).has_fence = true
    ∧ (set_fence_signal (set_fence_signal SubmitCommandBufferBuilder.new 7) 9).wait_semaphores
        = (set_fence_signal SubmitCommandBufferBuilder.new 7).wait_semaphores
    ∧ (set_fence_signal (set_fence_signal SubmitCommandBufferBuilder.new 7) 9).destination_stages
        = (set_fence_signal SubmitCommandBufferBuilder.new 7).destination_stages
    ∧ (set_fence_signal (set_fence_signal SubmitCommandBufferBuilder.new 7) 9).signal_semaphores
        = (set_fence_signal SubmitCommandBufferBuilder.new 7).signal_semaphores
    ∧ (set_fence_signal (set_fence_signal SubmitCommandBufferBuilder.new 7) 9).command_buffers
        = (set_fence_signal SubmitCommandBufferBuilder.new 7).command_buffers :=
  set_fence_signal_replaces (set_fence_signal SubmitCommandBufferBuilder.new 7) 9
    (by decide)

end Vulkano

namespace Vulkano

open SubmitCommandBufferBuilder

/-- C3: every builder reachable from `new()` by any sequence of
`add_wait_semaphore`, `add_command_buffer`, `add_signal_semaphore`,
`set_fence_signal` and successful `merge` operations has a wait-semaphore
list of the same length as its destination-stage-mask list. -/
theorem reachable_wait_stage_length (b : SubmitCommandBufferBuilder)
    (h : Reachable b) :
    b.wait_semaphores.length = b.destination_stages.length := by
  induction h with
  | base => rfl
  | step b o _ ih =>
    cases o <;>
      simp [applyOp, add_wait_semaphore, add_command_buffer,
        add_signal_semaphore, set_fence_signal, ih]
  | fromMerge a b m _ _ hm iha ihb =>
    simp only [merge] at hm
    split at hm
    · cases hm
      simp [iha, ihb]
    · cases hm

/-- Witness for C3: a concrete reachable builder (one wait entry added,
then merged with a builder holding a command buffer). -/
theorem reachable_wait_stage_length_witness :
    (add_wait_semaphore SubmitCommandBufferBuilder.new 5 7).wait_semaphores.length
      = (add_wait_semaphore SubmitCommandBufferBuilder.new 5 7).destination_stages.length :=
  reachable_wait_stage_length _
    (Reachable.step SubmitCommandBufferBuilder.new (BuilderOp.wait 5 7)
      Reachable.base)

/-- C4: `submit` succeeds exactly when the backend reports success; it
returns an error to the caller exactly when the backend reports
out-of-host-memory, out-of-device-memory or device-lost (mapped to the
`OomError` and `DeviceLost` variants); every other backend error code
makes it panic instead of returning. -/
theorem submit_error_taxonomy (b : SubmitCommandBufferBuilder)
    (backend : Except Error Unit) :
    (backend = Except.ok () → submit b backend = some (Except.ok ()))
    ∧ (∀ e, backend = Except.error e →
        (submit b backend
            = some (Except.error
                (SubmitCommandBufferError.OomError OomError.OutOfHostMemory))
          ↔ e = Error.OutOfHostMemory)
        ∧ (submit b backend
            = some (Except.error
                (SubmitCommandBufferError.OomError OomError.OutOfDeviceMemory))
          ↔ e = Error.OutOfDeviceMemory)
        ∧ (submit b backend
            = some (Except.error SubmitCommandBufferError.DeviceLost)
          ↔ e = Error.DeviceLost)
        ∧ (submit b backend = none
          ↔ ¬(e = Error.OutOfHostMemory ∨ e = Error.OutOfDeviceMemory
              ∨ e = Error.DeviceLost))) := by
  constructor
  · intro hok
    subst hok
    rfl
  · intro e he
    subst he
    cases e <;> simp [submit, SubmitCommandBufferError.fromError]

/-- Witness for C4: backend reports device-lost on a fresh builder. -/
theorem submit_error_taxonomy_witness :
    submit SubmitCommandBufferBuilder.new (Except.error Error.DeviceLost)
      = some (Except.error SubmitCommandBufferError.DeviceLost) :=
  ((submit_error_taxonomy SubmitCommandBufferBuilder.new
      (Except.error Error.DeviceLost)).2 Error.DeviceLost rfl).2.2.1.mpr rfl

/-- Helper: once the pass counter has moved past `Finished`, every further
`next_pass` call produces nothing, so the collected pass list is empty. -/
theorem passes_exhausted (m fuel : Nat) :
    Frame.passes ⟨m + 3⟩ fuel = [] := by
  cases fuel <;> rfl

/-- C5: from a fresh frame, driving `next_pass` any number of times yields
exactly the sequence [Deferred, Lighting, Finished]; each call advances
exactly one stage, and once `Finished` has been produced every further
call produces nothing. -/
theorem next_pass_sequence (n : Nat) :
    Frame.passes Frame.start (n + 3)
      = [Pass.Deferred, Pass.Lighting, Pass.Finished]
    ∧ Frame.next_pass Frame.start = some (Pass.Deferred, ⟨1⟩)
    ∧ Frame.next_pass ⟨1⟩ = some (Pass.Lighting, ⟨2⟩)
    ∧ Frame.next_pass ⟨2⟩ = some (Pass.Finished, ⟨3⟩)
    ∧ (∀ m, Frame.next_pass ⟨m + 3⟩ = none) := by
  refine ⟨?_, rfl, rfl, rfl, fun m => rfl⟩
  show Frame.passes ⟨0⟩ (n + 3) = _
  have h0 : Frame.passes ⟨0⟩ (n + 3)
      = Pass.Deferred :: Frame.passes ⟨1⟩ (n + 2) := rfl
  have h1 : Frame.passes ⟨1⟩ (n + 2)
      = Pass.Lighting :: Frame.passes ⟨2⟩ (n + 1) := rfl
  have h2 : Frame.passes ⟨2⟩ (n + 1)
      = Pass.Finished :: Frame.passes ⟨3⟩ n := rfl
  rw [h0, h1, h2, show (⟨3⟩ : Frame) = ⟨0 + 3⟩ from rfl, passes_exhausted]

end Vulkano

namespace Vulkano

/-- C6: when the surface has zero width or zero height the iteration
returns immediately: the loop state (recreation flag, swapchain, images,
dependency future) is returned unchanged and no effect happens — not even
the non-blocking `cleanup_finished` call. -/
theorem minimized_skips_iteration (s : LoopState) (env : Env)
    (h : env.width = 0 ∨ env.height = 0) :
    redrawEventsCleared s env
      = some (s, ⟨false, false, false, none, false, none⟩) := by
  simp [redrawEventsCleared, h]

/-- Witness for C6: a concrete state and a zero-width environment. -/
theorem minimized_skips_iteration_witness :
    redrawEventsCleared ⟨false, 0, GpuFut.now, 0⟩
        ⟨0, 5, RecreateResult.ok, AcquireResult.ok 0 false, FlushResult.ok⟩
      = some (⟨false, 0, GpuFut.now, 0⟩,
          ⟨false, false, false, none, false, none⟩) :=
  minimized_skips_iteration ⟨false, 0, GpuFut.now, 0⟩
    ⟨0, 5, RecreateResult.ok, AcquireResult.ok 0 false, FlushResult.ok⟩
    (Or.inl rfl)

/-- Helper: an iteration entered with the recreation flag set either
panics, or skips before acquiring, or recreates the swapchain before any
acquire attempt — so whenever the acquire was attempted, recreation
happened first. -/
theorem recreate_flag_forces_recreation (s : LoopState) (env : Env)
    (s2 : LoopState) (eff : Effects) (hs : s.recreate_swapchain = true)
    (hstep : redrawEventsCleared s env = some (s2, eff))
    (hacq : eff.acquire_attempted = true) : eff.recreated = true := by
  by_cases hwh : env.width = 0 ∨ env.height = 0
  · simp only [redrawEventsCleared, if_pos hwh, Option.some.injEq,
      Prod.mk.injEq] at hstep
    rw [← hstep.2] at hacq
    cases hacq
  · simp only [redrawEventsCleared, if_neg hwh, hs, if_pos] at hstep
    cases hrec : env.recreate_result <;> rw [hrec] at hstep
    · simp only [afterAcquire] at hstep
      cases hacqr : env.acquire_result <;> rw [hacqr] at hstep
      · cases hfl : env.flush_result <;> rw [hfl] at hstep <;>
          · simp only [Option.some.injEq, Prod.mk.injEq] at hstep
            rw [← hstep.2]
      · simp only [Option.some.injEq, Prod.mk.injEq] at hstep
        rw [← hstep.2]
      · cases hstep
    · simp only [Option.some.injEq, Prod.mk.injEq] at hstep
      rw [← hstep.2] at hacq
      cases hacq
    · cases hstep

/-- C7: when the iteration reaches `acquire_next_image` and it reports
out-of-date, no work is submitted and nothing is presented this iteration,
the recreation flag is set, the previous dependency future stays in place,
and in any later non-minimized iteration the acquire can only be attempted
after the swapchain has been recreated. -/
theorem acquire_out_of_date_flags_recreation (s : LoopState) (env : Env)
    (hw : env.width ≠ 0) (hh : env.height ≠ 0)
    (hr : s.recreate_swapchain = true → env.recreate_result = RecreateResult.ok)
    (ha : env.acquire_result = AcquireResult.outOfDate) :
    ∃ s2 eff, redrawEventsCleared s env = some (s2, eff)
      ∧ eff.submitted = false
      ∧ eff.presented_image = none
      ∧ eff.acquired_image = none
      ∧ s2.recreate_swapchain = true
      ∧ s2.previous_frame_end = s.previous_frame_end
      ∧ (∀ env2 s3 eff2,
          redrawEventsCleared s2 env2 = some (s3, eff2) →
          eff2.acquire_attempted = true → eff2.recreated = true) := by
  have hwh : ¬(env.width = 0 ∨ env.height = 0) := by
    rintro (h | h) <;> [exact hw h; exact hh h]
  cases hflag : s.recreate_swapchain with
  | false =>
    refine ⟨{ s with recreate_swapchain := true },
      ⟨true, false, true, none, false, none⟩, ?_, rfl, rfl, rfl, rfl, rfl, ?_⟩
    · simp [redrawEventsCleared, hwh, hflag, afterAcquire, ha]
    · intro env2 s3 eff2 hstep2 hacq2
      exact recreate_flag_forces_recreation _ env2 s3 eff2 rfl hstep2 hacq2
  | true =>
    refine ⟨{ s with swapchain := s.swapchain + 1, recreate_swapchain := true },
      ⟨true, true, true, none, false, none⟩, ?_, rfl, rfl, rfl, rfl, rfl, ?_⟩
    · simp [redrawEventsCleared, hwh, hflag, hr hflag, afterAcquire, ha]
    · intro env2 s3 eff2 hstep2 hacq2
      exact recreate_flag_forces_recreation _ env2 s3 eff2 rfl hstep2 hacq2

/-- Witness for C7: fresh state, out-of-date acquisition. -/
theorem acquire_out_of_date_flags_recreation_witness :
    ∃ s2 eff,
      redrawEventsCleared ⟨false, 0, GpuFut.flushed 4, 5⟩
          ⟨8, 6, RecreateResult.ok, AcquireResult.outOfDate, FlushResult.ok⟩
        = some (s2, eff)
      ∧ eff.submitted = false
      ∧ eff.presented_image = none
      ∧ eff.acquired_image = none
      ∧ s2.recreate_swapchain = true
      ∧ s2.previous_frame_end = (⟨false, 0, GpuFut.flushed 4, 5⟩ : LoopState).previous_frame_end
      ∧ (∀ env2 s3 eff2,
          redrawEventsCleared s2 env2 = some (s3, eff2) →
          eff2.acquire_attempted = true → eff2.recreated = true) :=
  acquire_out_of_date_flags_recreation ⟨false, 0, GpuFut.flushed 4, 5⟩
    ⟨8, 6, RecreateResult.ok, AcquireResult.outOfDate, FlushResult.ok⟩
    (by decide) (by decide) (by intro h; cases h) rfl

end Vulkano

namespace Vulkano

/-- Helper: a non-minimized iteration with the recreation flag clear
continues directly from the acquire. -/
theorem redraw_noflag (s : LoopState) (env : Env)
    (hwh : ¬(env.width = 0 ∨ env.height = 0))
    (hflag : s.recreate_swapchain = false) :
    redrawEventsCleared s env = afterAcquire s env false := by
  simp [redrawEventsCleared, hwh, hflag]

/-- Helper: a non-minimized iteration with the recreation flag set and a
successful recreation continues from the acquire with the fresh swapchain
generation and the flag cleared. -/
theorem redraw_flag_ok (s : LoopState) (env : Env)
    (hwh : ¬(env.width = 0 ∨ env.height = 0))
    (hflag : s.recreate_swapchain = true)
    (hrec : env.recreate_result = RecreateResult.ok) :
    redrawEventsCleared s env
      = afterAcquire
          { s with swapchain := s.swapchain + 1, recreate_swapchain := false }
          env true := by
  simp [redrawEventsCleared, hwh, hflag, hrec]

/-- Helper: full description of the tail of an iteration whose acquire
succeeds — the acquired image is submitted and presented, a suboptimal
acquire sets the recreation flag, and the carried future is the flushed
future on flush success and a fresh no-op on either flush failure (with
the flag additionally set on an out-of-date flush). -/
theorem afterAcquire_success (sb : LoopState) (env : Env) (rec : Bool)
    (img : Nat) (subopt : Bool)
    (ha : env.acquire_result = AcquireResult.ok img subopt) :
    ∃ s2 eff, afterAcquire sb env rec = some (s2, eff)
      ∧ eff.submitted = true
      ∧ eff.acquired_image = some img
      ∧ eff.presented_image = some img
      ∧ (subopt = true → s2.recreate_swapchain = true)
      ∧ (env.flush_result = FlushResult.outOfDate →
            s2.previous_frame_end = GpuFut.now ∧ s2.recreate_swapchain = true)
      ∧ (env.flush_result = FlushResult.otherError →
            s2.previous_frame_end = GpuFut.now)
      ∧ (env.flush_result = FlushResult.ok →
            s2.previous_frame_end = GpuFut.flushed sb.frame_counter) := by
  obtain ⟨r, sw, pf, fc⟩ := sb
  cases subopt <;> cases hfl : env.flush_result
  · refine ⟨⟨r, sw, GpuFut.flushed fc, fc + 1⟩,
      ⟨true, rec, true, some img, true, some img⟩,
      by simp [afterAcquire, ha, hfl], rfl, rfl, rfl, ?_, ?_, ?_, ?_⟩ <;>
      intro h <;> simp_all
  · refine ⟨⟨true, sw, GpuFut.now, fc + 1⟩,
      ⟨true, rec, true, some img, true, some img⟩,
      by simp [afterAcquire, ha, hfl], rfl, rfl, rfl, ?_, ?_, ?_, ?_⟩ <;>
      intro h <;> simp_all
  · refine ⟨⟨r, sw, GpuFut.now, fc + 1⟩,
      ⟨true, rec, true, some img, true, some img⟩,
      by simp [afterAcquire, ha, hfl], rfl, rfl, rfl, ?_, ?_, ?_, ?_⟩ <;>
      intro h <;> simp_all
  · refine ⟨⟨true, sw, GpuFut.flushed fc, fc + 1⟩,
      ⟨true, rec, true, some img, true, some img⟩,
      by simp [afterAcquire, ha, hfl], rfl, rfl, rfl, ?_, ?_, ?_, ?_⟩ <;>
      intro h <;> simp_all
  · refine ⟨⟨true, sw, GpuFut.now, fc + 1⟩,
      ⟨true, rec, true, some img, true, some img⟩,
      by simp [afterAcquire, ha, hfl], rfl, rfl, rfl, ?_, ?_, ?_, ?_⟩ <;>
      intro h <;> simp_all
  · refine ⟨⟨true, sw, GpuFut.now, fc + 1⟩,
      ⟨true, rec, true, some img, true, some img⟩,
      by simp [afterAcquire, ha, hfl], rfl, rfl, rfl, ?_, ?_, ?_, ?_⟩ <;>
      intro h <;> simp_all

/-- C8 as frozen is false on the code: a successful flush is "a result
other than an out-of-date failure", yet the dependency future carried into
the next iteration is then the flushed chain future, not a fresh no-op
future. -/
theorem flush_ok_retains_chain_future :
    ((⟨1, 1, RecreateResult.ok, AcquireResult.ok 0 false,
        FlushResult.ok⟩ : Env).flush_result ≠ FlushResult.outOfDate)
    ∧ (redrawEventsCleared ⟨false, 0, GpuFut.now, 0⟩
          ⟨1, 1, RecreateResult.ok, AcquireResult.ok 0 false,
            FlushResult.ok⟩).map (fun r => r.1.previous_frame_end)
        = some (GpuFut.flushed 0)
    ∧ GpuFut.flushed 0 ≠ GpuFut.now := by decide

/-- C8 amended: in every iteration that reaches the end-of-frame flush,
a flush FAILURE other than out-of-date resets the dependency future for
the next iteration to a fresh already-signaled no-op future; an
out-of-date flush failure likewise resets it and additionally sets the
recreation flag; a successful flush retains this frame's freshly flushed
future (never a dangling or reused future from a failed chain). -/
theorem flush_result_future_policy (s : LoopState) (env : Env)
    (img : Nat) (subopt : Bool)
    (hw : env.width ≠ 0) (hh : env.height ≠ 0)
    (hr : s.recreate_swapchain = true → env.recreate_result = RecreateResult.ok)
    (ha : env.acquire_result = AcquireResult.ok img subopt) :
    ∃ s2 eff, redrawEventsCleared s env = some (s2, eff)
      ∧ eff.submitted = true
      ∧ (env.flush_result = FlushResult.outOfDate →
            s2.previous_frame_end = GpuFut.now ∧ s2.recreate_swapchain = true)
      ∧ (env.flush_result = FlushResult.otherError →
            s2.previous_frame_end = GpuFut.now)
      ∧ (env.flush_result = FlushResult.ok →
            s2.previous_frame_end = GpuFut.flushed s.frame_counter) := by
  have hwh : ¬(env.width = 0 ∨ env.height = 0) := by
    rintro (h | h) <;> [exact hw h; exact hh h]
  cases hflag : s.recreate_swapchain
  · obtain ⟨s2, eff, hstep, hsub, _, _, _, hood, hoth, hok⟩ :=
      afterAcquire_success s env false img subopt ha
    exact ⟨s2, eff, (redraw_noflag s env hwh hflag).trans hstep,
      hsub, hood, hoth, hok⟩
  · obtain ⟨s2, eff, hstep, hsub, _, _, _, hood, hoth, hok⟩ :=
      afterAcquire_success
        { s with swapchain := s.swapchain + 1, recreate_swapchain := false }
        env true img subopt ha
    exact ⟨s2, eff, (redraw_flag_ok s env hwh hflag (hr hflag)).trans hstep,
      hsub, hood, hoth, hok⟩

/-- Witness for the amended C8: a concrete iteration whose flush fails
with a non-out-of-date error resets the future to the no-op future. -/
theorem flush_result_future_policy_witness :
    ∃ s2 eff,
      redrawEventsCleared ⟨false, 3, GpuFut.flushed 9, 4⟩
          ⟨7, 5, RecreateResult.ok, AcquireResult.ok 2 false,
            FlushResult.otherError⟩ = some (s2, eff)
      ∧ eff.submitted = true
      ∧ ((⟨7, 5, RecreateResult.ok, AcquireResult.ok 2 false,
            FlushResult.otherError⟩ : Env).flush_result = FlushResult.outOfDate →
            s2.previous_frame_end = GpuFut.now ∧ s2.recreate_swapchain = true)
      ∧ ((⟨7, 5, RecreateResult.ok, AcquireResult.ok 2 false,
            FlushResult.otherError⟩ : Env).flush_result = FlushResult.otherError →
            s2.previous_frame_end = GpuFut.now)
      ∧ ((⟨7, 5, RecreateResult.ok, AcquireResult.ok 2 false,
            FlushResult.otherError⟩ : Env).flush_result = FlushResult.ok →
            s2.previous_frame_end
              = GpuFut.flushed (⟨false, 3, GpuFut.flushed 9, 4⟩ : LoopState).frame_counter) :=
  flush_result_future_policy ⟨false, 3, GpuFut.flushed 9, 4⟩
    ⟨7, 5, RecreateResult.ok, AcquireResult.ok 2 false, FlushResult.otherError⟩
    2 false (by decide) (by decide) (by intro h; cases h) rfl

/-- C9: when the acquire succeeds but reports a suboptimal surface, the
iteration sets the recreation flag (recreation is deferred to the next
frame) and still records, submits and presents using the image acquired
this frame. -/
theorem suboptimal_defers_recreation (s : LoopState) (env : Env) (img : Nat)
    (hw : env.width ≠ 0) (hh : env.height ≠ 0)
    (hr : s.recreate_swapchain = true → env.recreate_result = RecreateResult.ok)
    (ha : env.acquire_result = AcquireResult.ok img true) :
    ∃ s2 eff, redrawEventsCleared s env = some (s2, eff)
      ∧ s2.recreate_swapchain = true
      ∧ eff.submitted = true
      ∧ eff.acquired_image = some img
      ∧ eff.presented_image = some img := by
  have hwh : ¬(env.width = 0 ∨ env.height = 0) := by
    rintro (h | h) <;> [exact hw h; exact hh h]
  cases hflag : s.recreate_swapchain
  · obtain ⟨s2, eff, hstep, hsub, hai, hpi, hso, _, _, _⟩ :=
      afterAcquire_success s env false img true ha
    exact ⟨s2, eff, (redraw_noflag s env hwh hflag).trans hstep,
      hso rfl, hsub, hai, hpi⟩
  · obtain ⟨s2, eff, hstep, hsub, hai, hpi, hso, _, _, _⟩ :=
      afterAcquire_success
        { s with swapchain := s.swapchain + 1, recreate_swapchain := false }
        env true img true ha
    exact ⟨s2, eff, (redraw_flag_ok s env hwh hflag (hr hflag)).trans hstep,
      hso rfl, hsub, hai, hpi⟩

/-- Witness for C9: concrete suboptimal acquisition of image 2. -/
theorem suboptimal_defers_recreation_witness :
    ∃ s2 eff,
      redrawEventsCleared ⟨false, 0, GpuFut.now, 0⟩
          ⟨4, 4, RecreateResult.ok, AcquireResult.ok 2 true, FlushResult.ok⟩
        = some (s2, eff)
      ∧ s2.recreate_swapchain = true
      ∧ eff.submitted = true
      ∧ eff.acquired_image = some 2
      ∧ eff.presented_image = some 2 :=
  suboptimal_defers_recreation ⟨false, 0, GpuFut.now, 0⟩
    ⟨4, 4, RecreateResult.ok, AcquireResult.ok 2 true, FlushResult.ok⟩ 2
    (by decide) (by decide) (by intro h; cases h) rfl

end Vulkano
